import Mathlib

/-!
Verification of the SEV guest-launch control path (`src/arch/src/x86_64/sev.rs`).

The Rust code is shallowly embedded: the `Sev` context, the launch state
machine, the error-code translator, the region aligner of
`launch_update_data`, and the firmware/kernel loaders become executable
Lean definitions.  Device interaction is modelled by a trace of issued
commands (`SevCmd`), guest memory by a byte function together with a host
base offset (`get_host_address` of the single backing mapping), and the
values that the kernel writes back through command payloads (the launch
handle, the measurement bytes) become explicit parameters of the
corresponding operations.  32-bit arithmetic of the source is modelled on
`Nat` with explicit reduction modulo 4294967296 where the source wraps.
-/

namespace SevGuest

/-- Length of the initial boot time measurement (MEASUREMENT_LEN). -/
def MEASUREMENT_LEN : Nat := 48

/-- Where the SEV firmware will be loaded in guest memory (FIRMWARE_ADDR, 0x100000). -/
def FIRMWARE_ADDR : Nat := 1048576

/-- Guest-physical address where load_kernel places the bzImage (0x1000000). -/
def KERNEL_LOAD_ADDR : Nat := 16777216

/-- Debugging of the guest is disallowed when set. -/
def POLICY_NOBDG : Nat := 1

/-- Sharing keys with other guests is disallowed when set. -/
def POLICY_NOKS : Nat := 2

/-- SEV-ES is required when set. -/
def POLICY_ES : Nat := 4

/-- Sending the guest to another platform is disallowed when set. -/
def POLICY_NOSEND : Nat := 8

/-- The guest must not be transmitted outside the domain when set. -/
def POLICY_DOMAIN : Nat := 16

/-- The guest must not be transmitted to a non-SEV platform when set. -/
def POLICY_SEV : Nat := 32

/-- SEV platform errors (enum SevError).  Mirrors the source constructor for
constructor; `Errno` wraps a raw transport error number. -/
inductive SevError
  | InvalidPlatformState
  | InvalidGuestState
  | InvalidConfig
  | InvalidLength
  | AlreadyOwned
  | InvalidCertificate
  | PolicyFailure
  | Inactive
  | InvalidAddress
  | BadSignature
  | BadMeasurement
  | AsidOwned
  | InvalidAsid
  | WBINVDRequired
  | DfFlushRequired
  | InvalidGuest
  | InvalidCommand
  | HwerrorPlatform
  | HwerrorUnsafe
  | Unsupported
  | InvalidParam
  | ResourceLimit
  | SecureDataInvalid
  | RbModeExited
  | InvalidPageSize
  | InvalidPageState
  | InvalidMDataEntry
  | InvalidPageOwner
  | AeadOverflow
  | RmpInitRequired
  | BadSvn
  | BadVersion
  | ShutdownRequired
  | UpdateFailed
  | RestoreRequired
  | RmpInitFailed
  | InvalidKey
  | InvalidErrorCode
  | Errno (n : Int)
deriving DecidableEq

/-- The error-code translator, `impl From of u32 for SevError`: maps a raw
32-bit platform status code to a structured error kind; every code absent
from the table falls through to `InvalidErrorCode`. -/
def sevErrorFromCode (code : Nat) : SevError :=
  if code = 0x01 then SevError.InvalidPlatformState
  else if code = 0x02 then SevError.InvalidGuestState
  else if code = 0x03 then SevError.InvalidConfig
  else if code = 0x04 then SevError.InvalidLength
  else if code = 0x05 then SevError.AlreadyOwned
  else if code = 0x06 then SevError.InvalidCertificate
  else if code = 0x07 then SevError.PolicyFailure
  else if code = 0x08 then SevError.Inactive
  else if code = 0x09 then SevError.InvalidAddress
  else if code = 0x0a then SevError.BadSignature
  else if code = 0x0b then SevError.BadMeasurement
  else if code = 0x0c then SevError.AsidOwned
  else if code = 0x0d then SevError.InvalidAsid
  else if code = 0x0e then SevError.WBINVDRequired
  else if code = 0x0f then SevError.DfFlushRequired
  else if code = 0x10 then SevError.InvalidGuest
  else if code = 0x11 then SevError.InvalidCommand
  else if code = 0x13 then SevError.HwerrorPlatform
  else if code = 0x14 then SevError.HwerrorUnsafe
  else if code = 0x15 then SevError.Unsupported
  else if code = 0x16 then SevError.InvalidParam
  else if code = 0x17 then SevError.ResourceLimit
  else if code = 0x18 then SevError.SecureDataInvalid
  else if code = 0x1F then SevError.RbModeExited
  else if code = 0x19 then SevError.InvalidPageSize
  else if code = 0x1a then SevError.InvalidPageState
  else if code = 0x1b then SevError.InvalidMDataEntry
  else if code = 0x1c then SevError.InvalidPageOwner
  else if code = 0x1d then SevError.AeadOverflow
  else if code = 0x20 then SevError.RmpInitRequired
  else if code = 0x21 then SevError.BadSvn
  else if code = 0x22 then SevError.BadVersion
  else if code = 0x23 then SevError.ShutdownRequired
  else if code = 0x24 then SevError.UpdateFailed
  else if code = 0x25 then SevError.RestoreRequired
  else if code = 0x26 then SevError.RmpInitFailed
  else if code = 0x27 then SevError.InvalidKey
  else SevError.InvalidErrorCode

/-- The set of status codes the translator's table recognizes (every
left-hand side of the match in `From of u32 for SevError`). -/
def sevKnownCodes : List Nat :=
  [0x01, 0x02, 0x03, 0x04, 0x05, 0x06, 0x07, 0x08, 0x09, 0x0a, 0x0b, 0x0c,
   0x0d, 0x0e, 0x0f, 0x10, 0x11, 0x13, 0x14, 0x15, 0x16, 0x17, 0x18, 0x1F,
   0x19, 0x1a, 0x1b, 0x1c, 0x1d, 0x20, 0x21, 0x22, 0x23, 0x24, 0x25, 0x26,
   0x27]

theorem sevErrorFromCode_default (code : Nat) (h : code ∉ sevKnownCodes) :
    sevErrorFromCode code = SevError.InvalidErrorCode := by
  simp only [sevKnownCodes, List.mem_cons, List.not_mem_nil, or_false, not_or] at h
  obtain ⟨h1, h2, h3, h4, h5, h6, h7, h8, h9, h10, h11, h12, h13, h14, h15,
    h16, h17, h18, h19, h20, h21, h22, h23, h24, h25, h26, h27, h28, h29,
    h30, h31, h32, h33, h34, h35, h36, h37⟩ := h
  simp only [sevErrorFromCode, h1, h2, h3, h4, h5, h6, h7, h8, h9, h10, h11,
    h12, h13, h14, h15, h16, h17, h18, h19, h20, h21, h22, h23, h24, h25,
    h26, h27, h28, h29, h30, h31, h32, h33, h34, h35, h36, h37, if_false,
    ite_false]

/-- SEV guest states (enum State). -/
inductive State
  | UnInit
  | Init
  | LaunchUpdate
  | LaunchSecret
  | Running
  | SendUpdate
  | RecieveUpdate
  | Sent
deriving DecidableEq

/-- Guest memory (GuestMemoryMmap): a single backing mapping.  `hostBase`
fixes the translation performed by get_host_address (host address of
guest-physical 0); `bytes` gives the byte stored at each guest-physical
address. -/
structure GuestMemoryMmap where
  hostBase : Nat
  bytes : Nat → Nat

/-- get_host_address: resolve a guest-physical address to a host address. -/
def get_host_address (gm : GuestMemoryMmap) (guest_addr : Nat) : Nat :=
  gm.hostBase + guest_addr

/-- read_slice: the bytes copied out of guest memory from address `a`, a
host-side buffer of length `n` (what the source's read_slice stores into
its scratch buffer). -/
def read_slice (gm : GuestMemoryMmap) (a n : Nat) : List Nat :=
  (List.range n).map (fun i => gm.bytes (a + i))

/-- read_exact_from: copy `n` bytes produced by the byte source `src`
(byte `i` of the source is `src i`) into guest memory starting at `dest`. -/
def read_exact_from (gm : GuestMemoryMmap) (dest n : Nat) (src : Nat → Nat) :
    GuestMemoryMmap :=
  { gm with
    bytes := fun a =>
      if dest ≤ a ∧ a < dest + n then src (a - dest) else gm.bytes a }

/-- The Sev guest launch context (struct Sev).  The device and VM file
descriptors carry no launch-relevant data and are omitted; everything the
launch logic reads or writes is here. -/
structure Sev where
  handle : Nat
  policy : Nat
  state : State
  measure : List Nat
  snp : Bool
  cbitpos : Nat
  encryption : Bool
  es : Bool
deriving DecidableEq

/-- Sev::new: fresh context.  `ebx` is the raw CPUID 0x8000001F ebx value;
the C-bit position is its low 6 bits; es is derived from the POLICY_ES bit. -/
def Sev.new (snp encryption : Bool) (policy ebx : Nat) : Sev :=
  { handle := 0
    policy := policy
    state := State.UnInit
    measure := List.replicate 48 0
    snp := snp
    cbitpos := Nat.land ebx 63
    encryption := encryption
    es := Nat.land policy POLICY_ES != 0 }

/-- One device command submitted through sev_ioctl, with the payload fields
the launch logic fills in. -/
inductive SevCmd
  | snpInit
  | sevInit
  | sevEsInit
  | launchStart (policy sessionLen dhLen : Nat)
  | launchUpdateData (uaddr len : Nat)
  | launchUpdateVmsa
  | launchMeasure (len : Nat)
  | launchFinish (handle : Nat)
deriving DecidableEq

/-- Result of one public operation: the returned SevResult, the context
afterwards, the device commands issued (in order), the guest-memory reads
performed (start guest address and bytes obtained), and guest memory
afterwards. -/
structure SevOut where
  res : Except SevError Unit
  ctx : Sev
  cmds : List SevCmd
  reads : List (Nat × List Nat)
  mem : GuestMemoryMmap

/-- The region aligner inside Sev::launch_update_data (lines 459-469):
down-aligns the host address to 16 bytes, absorbs the shift into the
length, and rounds the length up to a multiple of 16.  The length lives in
a u32, so its arithmetic is reduced modulo 4294967296 exactly where the
source wraps. -/
def alignRegion (addr len : Nat) : Nat × Nat :=
  let aligned_addr := if addr % 16 ≠ 0 then addr - addr % 16 else addr
  let aligned_len0 := if addr % 16 ≠ 0 then (len + addr % 16) % 4294967296 else len
  let aligned_len :=
    if aligned_len0 % 16 ≠ 0 then
      (aligned_len0 - aligned_len0 % 16 + 16) % 4294967296
    else aligned_len0
  (aligned_addr, aligned_len)

/-- Modelled from the spec: the aligned length formula of section 4.4,
`len + (addr mod 16)` rounded up to the next multiple of 16, in exact
(unbounded) arithmetic.  Used to compare the source's u32 computation
against the specified value. -/
def roundUp16 (n : Nat) : Nat :=
  if n % 16 = 0 then n else n - n % 16 + 16

/-- Modelled from the spec: the exact aligned length of section 4.4. -/
def specAlignedLen (addr len : Nat) : Nat :=
  roundUp16 (len + addr % 16)

theorem alignRegion_addr (addr len : Nat) :
    (alignRegion addr len).1 = addr - addr % 16 := by
  simp only [alignRegion]
  split_ifs with h <;> omega

theorem alignRegion_len_mod (addr len : Nat) (hlen : len < 4294967296) :
    (alignRegion addr len).2 = specAlignedLen addr len % 4294967296 := by
  simp only [alignRegion, specAlignedLen, roundUp16]
  have h16 : (16:Nat) ∣ 4294967296 := by norm_num
  by_cases ha : addr % 16 = 0
  · simp only [ha, ne_eq, not_true_eq_false, if_false, ite_false, add_zero,
      not_false_eq_true]
    split_ifs with h1 <;> omega
  · simp only [ha, ne_eq, not_false_eq_true, if_true, ite_true]
    have hmm : (len + addr % 16) % 4294967296 % 16 = (len + addr % 16) % 16 :=
      Nat.mod_mod_of_dvd _ h16
    split_ifs with h1 h2 h3 <;> omega

theorem alignRegion_len_exact (addr len : Nat)
    (h : specAlignedLen addr len < 4294967296) :
    (alignRegion addr len).2 = specAlignedLen addr len := by
  have hlen : len < 4294967296 := by
    simp only [specAlignedLen, roundUp16] at h
    split_ifs at h <;> omega
  rw [alignRegion_len_mod addr len hlen, Nat.mod_eq_of_lt h]

theorem alignRegion_covers (addr len : Nat)
    (h : specAlignedLen addr len < 4294967296) :
    (alignRegion addr len).1 ≤ addr ∧
    addr + len ≤ (alignRegion addr len).1 + (alignRegion addr len).2 := by
  rw [alignRegion_addr, alignRegion_len_exact addr len h]
  simp only [specAlignedLen, roundUp16]
  constructor
  · omega
  · split_ifs with h1 <;> omega

/-- Sev::snp_launch_start: currently a stub returning Ok(()). -/
def snp_launch_start (s : Sev) (gm : GuestMemoryMmap) : SevOut :=
  ⟨Except.ok (), s, [], [], gm⟩

/-- Sev::snp_init: initialize the SEV-SNP platform.  Requires state UnInit,
sends SNP_INIT, moves to Init, then runs the (stubbed) SNP launch start. -/
def snp_init (s : Sev) (gm : GuestMemoryMmap) : SevOut :=
  if s.encryption = false then ⟨Except.ok (), s, [], [], gm⟩
  else if s.state ≠ State.UnInit then
    ⟨Except.error SevError.InvalidPlatformState, s, [], [], gm⟩
  else
    let out := snp_launch_start { s with state := State.Init } gm
    { out with cmds := SevCmd.snpInit :: out.cmds }

/-- Sev::sev_launch_start: establish the launch session.  Requires state
Init; the platform assigns the guest handle (written back through the
command payload, modelled by the `assigned` parameter); moves to
LaunchUpdate.  The session and DH-certificate blobs only contribute their
payload lengths. -/
def sev_launch_start (s : Sev) (gm : GuestMemoryMmap)
    (session dh_cert : Option (List Nat)) (assigned : Nat) : SevOut :=
  if s.encryption = false then ⟨Except.ok (), s, [], [], gm⟩
  else if s.state ≠ State.Init then
    ⟨Except.error SevError.InvalidPlatformState, s, [], [], gm⟩
  else
    ⟨Except.ok (),
     { s with handle := assigned, state := State.LaunchUpdate },
     [SevCmd.launchStart s.policy (session.getD []).length (dh_cert.getD []).length],
     [], gm⟩

/-- Sev::sev_init: initialize the SEV platform.  Requires state UnInit,
sends SEV_ES_INIT or SEV_INIT according to es, moves to Init, then
immediately chains into sev_launch_start. -/
def sev_init (s : Sev) (gm : GuestMemoryMmap)
    (session dh_cert : Option (List Nat)) (assigned : Nat) : SevOut :=
  if s.encryption = false then ⟨Except.ok (), s, [], [], gm⟩
  else if s.state ≠ State.UnInit then
    ⟨Except.error SevError.InvalidPlatformState, s, [], [], gm⟩
  else
    let cmdId := if s.es then SevCmd.sevEsInit else SevCmd.sevInit
    let out := sev_launch_start { s with state := State.Init } gm session dh_cert assigned
    { out with cmds := cmdId :: out.cmds }

/-- Sev::launch_update_vmsa: encrypt the VM save area.  A no-op unless both
encryption and es hold; otherwise requires state LaunchUpdate and sends
LAUNCH_UPDATE_VMSA (state is left at LaunchUpdate). -/
def launch_update_vmsa (s : Sev) (gm : GuestMemoryMmap) : SevOut :=
  if s.encryption = false ∨ s.es = false then ⟨Except.ok (), s, [], [], gm⟩
  else if s.state ≠ State.LaunchUpdate then
    ⟨Except.error SevError.InvalidPlatformState, s, [], [], gm⟩
  else
    ⟨Except.ok (), s, [SevCmd.launchUpdateVmsa], [], gm⟩

/-- Sev::launch_update_data: encrypt a guest memory region.  Resolves the
host address, aligns the region to 16 bytes (alignRegion), requires state
LaunchUpdate, reads the existing guest bytes of the leading and trailing
pads into scratch buffers, and sends LAUNCH_UPDATE_DATA over the aligned
region.  Guest memory is never written. -/
def launch_update_data (s : Sev) (gm : GuestMemoryMmap)
    (guest_addr len : Nat) : SevOut :=
  if s.encryption = false then ⟨Except.ok (), s, [], [], gm⟩
  else
    let addr := get_host_address gm guest_addr
    let aligned := alignRegion addr len
    if s.state ≠ State.LaunchUpdate then
      ⟨Except.error SevError.InvalidPlatformState, s, [], [], gm⟩
    else
      let leadReads :=
        if aligned.1 < addr then
          [(guest_addr - (addr - aligned.1),
            read_slice gm (guest_addr - (addr - aligned.1)) (addr - aligned.1))]
        else []
      let trailReads :=
        if addr + len < aligned.1 + aligned.2 then
          [(guest_addr + len,
            read_slice gm (guest_addr + len) (aligned.1 + aligned.2 - (addr + len)))]
        else []
      ⟨Except.ok (), s, [SevCmd.launchUpdateData aligned.1 aligned.2],
       leadReads ++ trailReads, gm⟩

/-- Sev::get_launch_measurement: retrieve the launch measurement.  Requires
state LaunchUpdate; the platform writes the 48-byte measurement back
through the command payload (modelled by `mval`); moves to LaunchSecret. -/
def get_launch_measurement (s : Sev) (gm : GuestMemoryMmap)
    (mval : List Nat) : SevOut :=
  if s.encryption = false then ⟨Except.ok (), s, [], [], gm⟩
  else if s.state ≠ State.LaunchUpdate then
    ⟨Except.error SevError.InvalidPlatformState, s, [], [], gm⟩
  else
    ⟨Except.ok (),
     { s with measure := mval, state := State.LaunchSecret },
     [SevCmd.launchMeasure MEASUREMENT_LEN], [], gm⟩

/-- Sev::sev_launch_finish: finish the launch sequence.  Requires state
LaunchSecret, sends LAUNCH_FINISH with the guest handle, moves to Running. -/
def sev_launch_finish (s : Sev) (gm : GuestMemoryMmap) : SevOut :=
  if s.encryption = false then ⟨Except.ok (), s, [], [], gm⟩
  else if s.state ≠ State.LaunchSecret then
    ⟨Except.error SevError.InvalidPlatformState, s, [], [], gm⟩
  else
    ⟨Except.ok (), { s with state := State.Running },
     [SevCmd.launchFinish s.handle], [], gm⟩

/-- Sev::load_kernel: copy a bzImage (length `kLen`, byte `i` is `k i`)
into guest memory at 0x1000000.  The encryption call is commented out in
the source; no command is issued and the context is untouched. -/
def load_kernel (s : Sev) (gm : GuestMemoryMmap) (kLen : Nat)
    (k : Nat → Nat) : SevOut :=
  ⟨Except.ok (), s, [], [], read_exact_from gm KERNEL_LOAD_ADDR kLen k⟩

/-- Sev::load_firmware: copy the firmware image (length `fwLen`, byte `i`
is `fw i`) into guest memory at FIRMWARE_ADDR, then run launch_update_data
over exactly that range (a no-op when encryption is disabled). -/
def load_firmware (s : Sev) (gm : GuestMemoryMmap) (fwLen : Nat)
    (fw : Nat → Nat) : SevOut :=
  let gm1 := read_exact_from gm FIRMWARE_ADDR fwLen fw
  launch_update_data s gm1 FIRMWARE_ADDR fwLen

/-- Fresh SEV (non-SNP) context with encryption enabled and a policy that
does not require ES. -/
def sevC0 : Sev := Sev.new false true 0 51

/-- Encryption-enabled, ES-required context already driven to Running. -/
def sevCRun : Sev := { Sev.new false true 4 51 with state := State.Running }

/-- Encryption-enabled context in state LaunchUpdate (mid launch). -/
def sevCLU : Sev := { Sev.new false true 0 51 with state := State.LaunchUpdate }

/-- Encryption-disabled (diagnostic) context parked at Running. -/
def sevCOff : Sev := { Sev.new false false 4 51 with state := State.Running }

/-- Encryption-enabled, es = false context parked at Running. -/
def sevCNoEs : Sev := { Sev.new false true 0 51 with state := State.Running }

/-- Concrete guest memory: host mapping based at 0, all bytes zero. -/
def gm0 : GuestMemoryMmap := ⟨0, fun _ => 0⟩

/-- C4: the error-code translator is total on 32-bit platform status codes;
0x07 maps to PolicyFailure, 0x1F to RbModeExited, 0x27 to InvalidKey, and
every code outside the known table (0xFF among them) maps to
InvalidErrorCode rather than failing to translate. -/
theorem c4_error_code_translation (code : Nat) (_hc : code < 4294967296)
    (h : code ∉ sevKnownCodes) :
    sevErrorFromCode 0x07 = SevError.PolicyFailure ∧
    sevErrorFromCode 0x1F = SevError.RbModeExited ∧
    sevErrorFromCode 0x27 = SevError.InvalidKey ∧
    sevErrorFromCode 0xFF = SevError.InvalidErrorCode ∧
    sevErrorFromCode code = SevError.InvalidErrorCode :=
  ⟨by decide, by decide, by decide, by decide, sevErrorFromCode_default code h⟩

/-- C4 witness: the translator evaluated at the concrete unknown code 0xFF. -/
theorem c4_error_code_translation_witness :
    (0xFF:Nat) < 4294967296 ∧ (0xFF:Nat) ∉ sevKnownCodes ∧
    sevErrorFromCode 0xFF = SevError.InvalidErrorCode :=
  ⟨by decide, by decide,
   (c4_error_code_translation 0xFF (by decide) (by decide)).2.2.2.2⟩

/-- C5 counterexample: at addr = 8, len = 4294967288 the u32 length
computation wraps, so the computed aligned length (0) is not the value
`len + (addr mod 16)` rounded up to the next multiple of 16 (4294967296). -/
theorem c5_alignment_counterexample :
    (alignRegion 8 4294967288).2 ≠ specAlignedLen 8 4294967288 := by
  decide

/-- C5 (amended): whenever the rounded-up length fits in a u32 the aligner
computes aligned_addr = addr - (addr mod 16) and aligned_len =
len + (addr mod 16) rounded up to the next multiple of 16; in particular
the request (1024, 32) is submitted unchanged and (1000, 20) becomes
(992, 32).  For larger lengths the u32 arithmetic wraps (see C10). -/
theorem c5_alignment_formula (addr len : Nat)
    (h : specAlignedLen addr len < 4294967296) :
    (alignRegion addr len).1 = addr - addr % 16 ∧
    (alignRegion addr len).2 = specAlignedLen addr len ∧
    alignRegion 1024 32 = (1024, 32) ∧
    alignRegion 1000 20 = (992, 32) :=
  ⟨alignRegion_addr addr len, alignRegion_len_exact addr len h,
   by decide, by decide⟩

/-- C5 witness: the amended formula instantiated at the request (1000, 20). -/
theorem c5_alignment_formula_witness :
    specAlignedLen 1000 20 < 4294967296 ∧
    (alignRegion 1000 20).1 = 1000 - 1000 % 16 ∧
    (alignRegion 1000 20).2 = specAlignedLen 1000 20 :=
  ⟨by decide, (c5_alignment_formula 1000 20 (by decide)).1,
   (c5_alignment_formula 1000 20 (by decide)).2.1⟩

/-- C6 counterexample: for the already-aligned request (1024, 32) the
submitted region equals the requested region, so it is not a strict
superset of it. -/
theorem c6_strict_superset_counterexample :
    ¬ Set.Ico (1024:Nat) (1024 + 32) ⊂
      Set.Ico (alignRegion 1024 32).1
        ((alignRegion 1024 32).1 + (alignRegion 1024 32).2) := by
  rw [show alignRegion 1024 32 = (1024, 32) from by decide]
  exact ssubset_irrefl _

/-- C6 (amended): whenever the rounded-up length fits in a u32, the
submitted region [aligned_addr, aligned_addr + aligned_len) is a superset
(not necessarily strict: an already 16-byte-aligned request is submitted
unchanged) of the requested region [addr, addr + len). -/
theorem c6_superset (addr len : Nat)
    (h : specAlignedLen addr len < 4294967296) :
    Set.Ico addr (addr + len) ⊆
      Set.Ico (alignRegion addr len).1
        ((alignRegion addr len).1 + (alignRegion addr len).2) :=
  Set.Ico_subset_Ico (alignRegion_covers addr len h).1
    (alignRegion_covers addr len h).2

/-- C6 witness: superset containment instantiated at the request (1000, 20). -/
theorem c6_superset_witness :
    specAlignedLen 1000 20 < 4294967296 ∧
    Set.Ico (1000:Nat) (1000 + 20) ⊆
      Set.Ico (alignRegion 1000 20).1
        ((alignRegion 1000 20).1 + (alignRegion 1000 20).2) :=
  ⟨by decide, c6_superset 1000 20 (by decide)⟩

/-- C10: the aligner's length arithmetic is 32-bit wrapping: the computed
aligned length always equals the mathematical rounded-up length reduced
modulo 2^32, and at addr = 8 (addr mod 16 = 8, not 0) with
len = 4294967288 (greater than 2^32 - 16) it wraps to 0, so the submitted
region fails to cover the requested range. -/
theorem c10_length_wrapping :
    (∀ addr len : Nat, len < 4294967296 →
      (alignRegion addr len).2 = specAlignedLen addr len % 4294967296) ∧
    (8:Nat) % 16 ≠ 0 ∧
    4294967296 - 16 < (4294967288:Nat) ∧
    (alignRegion 8 4294967288).2 = 0 ∧
    specAlignedLen 8 4294967288 = 4294967296 ∧
    ¬ Set.Ico (8:Nat) (8 + 4294967288) ⊆
      Set.Ico (alignRegion 8 4294967288).1
        ((alignRegion 8 4294967288).1 + (alignRegion 8 4294967288).2) := by
  refine ⟨alignRegion_len_mod, by decide, by decide, by decide, by decide, ?_⟩
  intro hsub
  have h8 : (8:Nat) ∈ Set.Ico (8:Nat) (8 + 4294967288) := by
    simp [Set.mem_Ico]
  have hin := hsub h8
  rw [show alignRegion 8 4294967288 = (0, 0) from by decide] at hin
  simp [Set.mem_Ico] at hin

/-- C10 witness: the universally quantified wrapping identity instantiated
at the request (1000, 20). -/
theorem c10_length_wrapping_witness :
    (20:Nat) < 4294967296 ∧
    (alignRegion 1000 20).2 = specAlignedLen 1000 20 % 4294967296 :=
  ⟨by decide, c10_length_wrapping.1 1000 20 (by decide)⟩

/-- C1 counterexample: on a fresh encryption-enabled context, sev_init
succeeds but leaves the state at LaunchUpdate, not Init — sev_init chains
sev_launch_start internally, so the launch-start transition is not a
separate subsequent operation. -/
theorem c1_platform_init_counterexample :
    sevC0.encryption = true ∧ sevC0.state = State.UnInit ∧
    (sev_init sevC0 gm0 none none 7).res = Except.ok () ∧
    (sev_init sevC0 gm0 none none 7).ctx.state = State.LaunchUpdate ∧
    State.LaunchUpdate ≠ State.Init :=
  ⟨by decide, by decide, rfl, by decide, by decide⟩

/-- C1 (amended): with encryption enabled, each platform-init variant
succeeds exactly when state = UnInit.  A successful snp_init leaves the
state at Init (its launch-start step is a stub), while a successful
sev_init internally chains the launch-start command and therefore leaves
the state at LaunchUpdate, having passed through Init. -/
theorem c1_platform_init_transition (s : Sev) (gm : GuestMemoryMmap)
    (henc : s.encryption = true) (session dh_cert : Option (List Nat))
    (assigned : Nat) :
    ((snp_init s gm).res = Except.ok () ↔ s.state = State.UnInit) ∧
    (s.state = State.UnInit → (snp_init s gm).ctx.state = State.Init) ∧
    ((sev_init s gm session dh_cert assigned).res = Except.ok () ↔
      s.state = State.UnInit) ∧
    (s.state = State.UnInit →
      (sev_init s gm session dh_cert assigned).ctx.state = State.LaunchUpdate) := by
  by_cases hs : s.state = State.UnInit <;>
    simp [snp_init, sev_init, sev_launch_start, snp_launch_start, henc, hs]

/-- C1 witness: the amended transition facts instantiated on the fresh
encryption-enabled context. -/
theorem c1_platform_init_transition_witness :
    sevC0.encryption = true ∧
    (((snp_init sevC0 gm0).res = Except.ok () ↔ sevC0.state = State.UnInit) ∧
     (sevC0.state = State.UnInit → (snp_init sevC0 gm0).ctx.state = State.Init) ∧
     (((sev_init sevC0 gm0 none none 7).res = Except.ok () ↔
        sevC0.state = State.UnInit)) ∧
     (sevC0.state = State.UnInit →
        (sev_init sevC0 gm0 none none 7).ctx.state = State.LaunchUpdate)) :=
  ⟨rfl, c1_platform_init_transition sevC0 gm0 rfl none none 7⟩

/-- C2: every launch operation invoked with encryption enabled from a state
other than its required state returns InvalidPlatformState, issues no
device command, and leaves the context (state included) and guest memory
unchanged. -/
theorem c2_wrong_state_rejected (s : Sev) (gm : GuestMemoryMmap)
    (henc : s.encryption = true) :
    (∀ session dh_cert assigned, s.state ≠ State.UnInit →
      sev_init s gm session dh_cert assigned =
        ⟨Except.error SevError.InvalidPlatformState, s, [], [], gm⟩) ∧
    (s.state ≠ State.UnInit →
      snp_init s gm =
        ⟨Except.error SevError.InvalidPlatformState, s, [], [], gm⟩) ∧
    (∀ session dh_cert assigned, s.state ≠ State.Init →
      sev_launch_start s gm session dh_cert assigned =
        ⟨Except.error SevError.InvalidPlatformState, s, [], [], gm⟩) ∧
    (∀ guest_addr len, s.state ≠ State.LaunchUpdate →
      launch_update_data s gm guest_addr len =
        ⟨Except.error SevError.InvalidPlatformState, s, [], [], gm⟩) ∧
    (s.es = true → s.state ≠ State.LaunchUpdate →
      launch_update_vmsa s gm =
        ⟨Except.error SevError.InvalidPlatformState, s, [], [], gm⟩) ∧
    (∀ mval, s.state ≠ State.LaunchUpdate →
      get_launch_measurement s gm mval =
        ⟨Except.error SevError.InvalidPlatformState, s, [], [], gm⟩) ∧
    (s.state ≠ State.LaunchSecret →
      sev_launch_finish s gm =
        ⟨Except.error SevError.InvalidPlatformState, s, [], [], gm⟩) := by
  refine ⟨?_, ?_, ?_, ?_, ?_, ?_, ?_⟩
  · intro session dh_cert assigned hs
    simp [sev_init, henc, hs]
  · intro hs
    simp [snp_init, henc, hs]
  · intro session dh_cert assigned hs
    simp [sev_launch_start, henc, hs]
  · intro guest_addr len hs
    simp [launch_update_data, henc, hs]
  · intro hes hs
    simp [launch_update_vmsa, henc, hes, hs]
  · intro mval hs
    simp [get_launch_measurement, henc, hs]
  · intro hs
    simp [sev_launch_finish, henc, hs]

/-- C2 witness: all seven rejections on a Running, encryption-enabled,
ES-required context. -/
theorem c2_wrong_state_rejected_witness :
    sev_init sevCRun gm0 none none 7 =
      ⟨Except.error SevError.InvalidPlatformState, sevCRun, [], [], gm0⟩ ∧
    snp_init sevCRun gm0 =
      ⟨Except.error SevError.InvalidPlatformState, sevCRun, [], [], gm0⟩ ∧
    sev_launch_start sevCRun gm0 none none 7 =
      ⟨Except.error SevError.InvalidPlatformState, sevCRun, [], [], gm0⟩ ∧
    launch_update_data sevCRun gm0 4096 32 =
      ⟨Except.error SevError.InvalidPlatformState, sevCRun, [], [], gm0⟩ ∧
    launch_update_vmsa sevCRun gm0 =
      ⟨Except.error SevError.InvalidPlatformState, sevCRun, [], [], gm0⟩ ∧
    get_launch_measurement sevCRun gm0 [] =
      ⟨Except.error SevError.InvalidPlatformState, sevCRun, [], [], gm0⟩ ∧
    sev_launch_finish sevCRun gm0 =
      ⟨Except.error SevError.InvalidPlatformState, sevCRun, [], [], gm0⟩ :=
  have h := c2_wrong_state_rejected sevCRun gm0 rfl
  ⟨h.1 none none 7 (by decide), h.2.1 (by decide),
   h.2.2.1 none none 7 (by decide), h.2.2.2.1 4096 32 (by decide),
   h.2.2.2.2.1 rfl (by decide), h.2.2.2.2.2.1 [] (by decide),
   h.2.2.2.2.2.2 (by decide)⟩

/-- C3 counterexample: with encryption disabled, load_firmware still copies
the image into guest memory — the call is not a pure no-op, so the bypass
is not total across all seven public operations. -/
theorem c3_bypass_counterexample :
    sevCOff.encryption = false ∧
    (load_firmware sevCOff gm0 1 (fun _ => 171)).res = Except.ok () ∧
    (load_firmware sevCOff gm0 1 (fun _ => 171)).mem.bytes FIRMWARE_ADDR = 171 ∧
    gm0.bytes FIRMWARE_ADDR = 0 :=
  ⟨by decide, rfl, by decide, by decide⟩

/-- C3 (amended): with encryption disabled every launch-sequence operation
(platform-init variants, launch-start, encrypt-data-region,
encrypt-save-area, retrieve-measurement, launch-finish) returns success
immediately, issuing no command, reading no guest memory, and leaving
context and guest memory untouched.  The loaders also return success and
never touch state, guest_handle or the measurement buffer, but they still
copy their image into guest memory, so for them the bypass is not a pure
no-op. -/
theorem c3_bypass (s : Sev) (gm : GuestMemoryMmap)
    (henc : s.encryption = false) :
    (∀ session dh_cert assigned,
      sev_init s gm session dh_cert assigned = ⟨Except.ok (), s, [], [], gm⟩) ∧
    snp_init s gm = ⟨Except.ok (), s, [], [], gm⟩ ∧
    (∀ session dh_cert assigned,
      sev_launch_start s gm session dh_cert assigned =
        ⟨Except.ok (), s, [], [], gm⟩) ∧
    (∀ guest_addr len,
      launch_update_data s gm guest_addr len = ⟨Except.ok (), s, [], [], gm⟩) ∧
    launch_update_vmsa s gm = ⟨Except.ok (), s, [], [], gm⟩ ∧
    (∀ mval, get_launch_measurement s gm mval = ⟨Except.ok (), s, [], [], gm⟩) ∧
    sev_launch_finish s gm = ⟨Except.ok (), s, [], [], gm⟩ ∧
    (∀ fwLen fw,
      load_firmware s gm fwLen fw =
        ⟨Except.ok (), s, [], [], read_exact_from gm FIRMWARE_ADDR fwLen fw⟩) ∧
    (∀ kLen k,
      load_kernel s gm kLen k =
        ⟨Except.ok (), s, [], [], read_exact_from gm KERNEL_LOAD_ADDR kLen k⟩) := by
  refine ⟨?_, ?_, ?_, ?_, ?_, ?_, ?_, ?_, ?_⟩
  · intro session dh_cert assigned
    simp [sev_init, henc]
  · simp [snp_init, henc]
  · intro session dh_cert assigned
    simp [sev_launch_start, henc]
  · intro guest_addr len
    simp [launch_update_data, henc]
  · simp [launch_update_vmsa, henc]
  · intro mval
    simp [get_launch_measurement, henc]
  · simp [sev_launch_finish, henc]
  · intro fwLen fw
    simp [load_firmware, launch_update_data, henc]
  · intro kLen k
    simp [load_kernel]

/-- C3 witness: the bypass facts instantiated on the encryption-disabled
context, including a loader call that does write guest memory. -/
theorem c3_bypass_witness :
    sevCOff.encryption = false ∧
    snp_init sevCOff gm0 = ⟨Except.ok (), sevCOff, [], [], gm0⟩ ∧
    sev_launch_finish sevCOff gm0 = ⟨Except.ok (), sevCOff, [], [], gm0⟩ ∧
    load_kernel sevCOff gm0 4 (fun _ => 9) =
      ⟨Except.ok (), sevCOff, [], [],
       read_exact_from gm0 KERNEL_LOAD_ADDR 4 (fun _ => 9)⟩ :=
  ⟨rfl, (c3_bypass sevCOff gm0 rfl).2.1,
   (c3_bypass sevCOff gm0 rfl).2.2.2.2.2.2.1,
   (c3_bypass sevCOff gm0 rfl).2.2.2.2.2.2.2.2 4 (fun _ => 9)⟩

/-- C9: when es is false, launch_update_vmsa returns success immediately
with no command issued and the context, guest memory and state untouched,
whatever the encryption flag and current state are — so an out-of-order
call with ES not required never yields InvalidPlatformState. -/
theorem c9_vmsa_noop_without_es (s : Sev) (gm : GuestMemoryMmap)
    (hes : s.es = false) :
    launch_update_vmsa s gm = ⟨Except.ok (), s, [], [], gm⟩ := by
  simp [launch_update_vmsa, hes]

/-- C9 witness: an encryption-enabled, es = false context in state Running
(not LaunchUpdate) where the call still succeeds as a no-op. -/
theorem c9_vmsa_noop_without_es_witness :
    sevCNoEs.es = false ∧ sevCNoEs.encryption = true ∧
    sevCNoEs.state ≠ State.LaunchUpdate ∧
    launch_update_vmsa sevCNoEs gm0 = ⟨Except.ok (), sevCNoEs, [], [], gm0⟩ :=
  ⟨rfl, rfl, by decide, c9_vmsa_noop_without_es sevCNoEs gm0 rfl⟩

/-- C7: a successful encrypt-data-region call never writes guest memory, so
the pad contents survive unchanged, and whenever the aligned region has a
non-empty leading (or trailing) pad, the existing guest bytes of that pad
range are read back from guest memory — the recorded read returns the
actual memory content at those addresses, not synthesized zeros. -/
theorem c7_pad_reads_and_preservation (s : Sev) (gm : GuestMemoryMmap)
    (guest_addr len : Nat) (henc : s.encryption = true)
    (hst : s.state = State.LaunchUpdate) :
    (launch_update_data s gm guest_addr len).mem = gm ∧
    ((alignRegion (get_host_address gm guest_addr) len).1 <
        get_host_address gm guest_addr →
      (guest_addr - (get_host_address gm guest_addr -
          (alignRegion (get_host_address gm guest_addr) len).1),
       read_slice gm
         (guest_addr - (get_host_address gm guest_addr -
            (alignRegion (get_host_address gm guest_addr) len).1))
         (get_host_address gm guest_addr -
            (alignRegion (get_host_address gm guest_addr) len).1)) ∈
        (launch_update_data s gm guest_addr len).reads) ∧
    (get_host_address gm guest_addr + len <
        (alignRegion (get_host_address gm guest_addr) len).1 +
        (alignRegion (get_host_address gm guest_addr) len).2 →
      (guest_addr + len,
       read_slice gm (guest_addr + len)
         ((alignRegion (get_host_address gm guest_addr) len).1 +
          (alignRegion (get_host_address gm guest_addr) len).2 -
          (get_host_address gm guest_addr + len))) ∈
        (launch_update_data s gm guest_addr len).reads) := by
  refine ⟨?_, ?_, ?_⟩
  · simp [launch_update_data, henc, hst]
  · intro hlt
    simp [launch_update_data, henc, hst, hlt]
  · intro hgt
    simp [launch_update_data, henc, hst, hgt]

/-- C7 witness: the request (1000, 20) on the mid-launch context has both
pads non-empty; the leading pad [992, 1000) and trailing pad [1020, 1024)
are read back and guest memory is unchanged. -/
theorem c7_pad_reads_and_preservation_witness :
    sevCLU.encryption = true ∧ sevCLU.state = State.LaunchUpdate ∧
    (alignRegion (get_host_address gm0 1000) 20).1 < get_host_address gm0 1000 ∧
    get_host_address gm0 1000 + 20 <
      (alignRegion (get_host_address gm0 1000) 20).1 +
      (alignRegion (get_host_address gm0 1000) 20).2 ∧
    (launch_update_data sevCLU gm0 1000 20).mem = gm0 ∧
    (1000 - (get_host_address gm0 1000 -
        (alignRegion (get_host_address gm0 1000) 20).1),
     read_slice gm0
       (1000 - (get_host_address gm0 1000 -
          (alignRegion (get_host_address gm0 1000) 20).1))
       (get_host_address gm0 1000 -
          (alignRegion (get_host_address gm0 1000) 20).1)) ∈
      (launch_update_data sevCLU gm0 1000 20).reads ∧
    (1000 + 20,
     read_slice gm0 (1000 + 20)
       ((alignRegion (get_host_address gm0 1000) 20).1 +
        (alignRegion (get_host_address gm0 1000) 20).2 -
        (get_host_address gm0 1000 + 20))) ∈
      (launch_update_data sevCLU gm0 1000 20).reads :=
  have h := c7_pad_reads_and_preservation sevCLU gm0 1000 20 rfl rfl
  ⟨rfl, rfl, by decide, by decide, h.1, h.2.1 (by decide), h.2.2 (by decide)⟩

/-- C8 counterexample: with a 4294967288-byte firmware image the u32 length
arithmetic wraps, the single data-encryption call is submitted with length
0, and the submitted region does not cover the firmware range even though
load_firmware reports success. -/
theorem c8_load_firmware_counterexample :
    sevCLU.encryption = true ∧ sevCLU.state = State.LaunchUpdate ∧
    (load_firmware sevCLU gm0 4294967288 (fun _ => 0)).res = Except.ok () ∧
    (load_firmware sevCLU gm0 4294967288 (fun _ => 0)).cmds =
      [SevCmd.launchUpdateData 1048576 0] ∧
    ¬ Set.Ico (1048576:Nat) (1048576 + 4294967288) ⊆
      Set.Ico (1048576:Nat) (1048576 + 0) := by
  refine ⟨rfl, rfl, rfl, by decide, ?_⟩
  intro hsub
  have h1 : (1048576:Nat) ∈ Set.Ico (1048576:Nat) (1048576 + 4294967288) := by
    simp [Set.mem_Ico]
  have h2 := hsub h1
  simp [Set.mem_Ico] at h2

/-- C8 (amended): for a firmware image of length L, load_firmware writes
exactly L bytes at guest-physical 0x100000 leaving every other byte
unchanged, and — with encryption enabled, state LaunchUpdate and the
rounded-up length fitting in a u32 — issues exactly one data-encryption
command whose submitted region covers the firmware range (as resolved to
host addresses). -/
theorem c8_load_firmware (s : Sev) (gm : GuestMemoryMmap) (fwLen : Nat)
    (fw : Nat → Nat) (henc : s.encryption = true)
    (hst : s.state = State.LaunchUpdate)
    (hfit : specAlignedLen (get_host_address gm FIRMWARE_ADDR) fwLen < 4294967296) :
    (load_firmware s gm fwLen fw).res = Except.ok () ∧
    (∀ a, FIRMWARE_ADDR ≤ a → a < FIRMWARE_ADDR + fwLen →
      (load_firmware s gm fwLen fw).mem.bytes a = fw (a - FIRMWARE_ADDR)) ∧
    (∀ a, a < FIRMWARE_ADDR ∨ FIRMWARE_ADDR + fwLen ≤ a →
      (load_firmware s gm fwLen fw).mem.bytes a = gm.bytes a) ∧
    (load_firmware s gm fwLen fw).cmds =
      [SevCmd.launchUpdateData
        (alignRegion (get_host_address gm FIRMWARE_ADDR) fwLen).1
        (alignRegion (get_host_address gm FIRMWARE_ADDR) fwLen).2] ∧
    (alignRegion (get_host_address gm FIRMWARE_ADDR) fwLen).1 ≤
      get_host_address gm FIRMWARE_ADDR ∧
    get_host_address gm FIRMWARE_ADDR + fwLen ≤
      (alignRegion (get_host_address gm FIRMWARE_ADDR) fwLen).1 +
      (alignRegion (get_host_address gm FIRMWARE_ADDR) fwLen).2 := by
  have hcov := alignRegion_covers (get_host_address gm FIRMWARE_ADDR) fwLen hfit
  refine ⟨?_, ?_, ?_, ?_, hcov.1, hcov.2⟩
  · simp [load_firmware, launch_update_data, henc, hst]
  · intro a h1 h2
    simp [load_firmware, launch_update_data, henc, hst, read_exact_from, h1, h2]
  · intro a h
    simp only [load_firmware, launch_update_data, henc, hst, read_exact_from]
    simp only [Bool.true_eq_false, if_false, ne_eq, not_true_eq_false,
      ite_false, not_false_eq_true, ite_true]
    rw [if_neg (by omega)]
  · simp [load_firmware, launch_update_data, henc, hst, read_exact_from,
      get_host_address]

/-- C8 witness: a one-byte firmware image on the mid-launch context; the
byte lands at 0x100000 and one covering encryption command is issued. -/
theorem c8_load_firmware_witness :
    sevCLU.encryption = true ∧ sevCLU.state = State.LaunchUpdate ∧
    specAlignedLen (get_host_address gm0 FIRMWARE_ADDR) 1 < 4294967296 ∧
    (load_firmware sevCLU gm0 1 (fun _ => 7)).res = Except.ok () ∧
    (load_firmware sevCLU gm0 1 (fun _ => 7)).mem.bytes FIRMWARE_ADDR = 7 ∧
    (load_firmware sevCLU gm0 1 (fun _ => 7)).cmds =
      [SevCmd.launchUpdateData
        (alignRegion (get_host_address gm0 FIRMWARE_ADDR) 1).1
        (alignRegion (get_host_address gm0 FIRMWARE_ADDR) 1).2] :=
  have h := c8_load_firmware sevCLU gm0 1 (fun _ => 7) rfl rfl (by decide)
  ⟨rfl, rfl, by decide, h.1, h.2.1 FIRMWARE_ADDR (by omega) (by omega),
   h.2.2.2.1⟩

end SevGuest
